import Mathlib

/-!
Verification of the ai-neighborhood-watch repository.

Part 1 embeds the frontend components (Sidebar.jsx, App.jsx, Navbar.jsx /
ReportModal, MapMap, AnalyticsModal, IncidentCard): the category colour
tables, the category filter, the report-submission handlers.

Part 2 models the backend AI briefing pipeline (ReportClassifier,
VoiceSynthesizer, AudioAssembler, FallbackController, BriefingService),
whose source is not in the repository snapshot, directly from the design
specification.
-/

namespace NeighborhoodWatch

/-- The seven category names, in the order every component declares them. -/
def taxonomyKeys : List String :=
  ["Theft", "Vandalism", "Accident", "Fire", "Suspicious Activity",
   "Other", "Uncategorized"]

/-- One entry of the Sidebar's `CATEGORIES` object: `{ color, label }`. -/
structure CategoryConfig where
  color : String
  label : String
deriving DecidableEq, Repr

/-- `CATEGORIES` of Sidebar.jsx (lines 5-13): name ↦ `{color, label}`. -/
def sidebarCATEGORIES : List (String × CategoryConfig) :=
  [("Theft", ⟨"#EF4444", "Theft"⟩),
   ("Vandalism", ⟨"#F97316", "Vandalism"⟩),
   ("Accident", ⟨"#3B82F6", "Accident"⟩),
   ("Fire", ⟨"#D946EF", "Fire"⟩),
   ("Suspicious Activity", ⟨"#EAB308", "Suspicious"⟩),
   ("Other", ⟨"#6B7280", "Other"⟩),
   ("Uncategorized", ⟨"#9CA3AF", "Uncategorized"⟩)]

/-- `CATEGORIES` of MapMap (lines 18-26): name ↦ colour string. -/
def mapCATEGORIES : List (String × String) :=
  [("Theft", "#EF4444"),
   ("Vandalism", "#F97316"),
   ("Accident", "#3B82F6"),
   ("Fire", "#D946EF"),
   ("Suspicious Activity", "#EAB308"),
   ("Other", "#6B7280"),
   ("Uncategorized", "#9CA3AF")]

/-- `CATEGORIES` of AnalyticsModal (lines 10-18): name ↦ colour string. -/
def analyticsCATEGORIES : List (String × String) :=
  [("Theft", "#EF4444"),
   ("Vandalism", "#F97316"),
   ("Accident", "#3B82F6"),
   ("Fire", "#D946EF"),
   ("Suspicious Activity", "#EAB308"),
   ("Other", "#6B7280"),
   ("Uncategorized", "#9CA3AF")]

/-- JavaScript property access `TABLE[key]`: first binding of `key`, if any. -/
def jsLookup {β : Type} (tbl : List (String × β)) (key : String) : Option β :=
  match tbl with
  | [] => none
  | (k, v) :: rest => if key = k then some v else jsLookup rest key

/-- Sidebar.jsx line 87:
`CATEGORIES[report.category] || CATEGORIES['Uncategorized']`. -/
def sidebarCategoryConfig (category : String) : Option CategoryConfig :=
  (jsLookup sidebarCATEGORIES category).or
    (jsLookup sidebarCATEGORIES "Uncategorized")

/-- MapMap lines 131 and 140:
`CATEGORIES[r.category] || CATEGORIES['Uncategorized']`. -/
def mapCategoryColor (category : String) : Option String :=
  (jsLookup mapCATEGORIES category).or (jsLookup mapCATEGORIES "Uncategorized")

/-- AnalyticsModal line 43 (doughnut `backgroundColor`):
`CATEGORIES[c] || CATEGORIES['Other']`. -/
def analyticsCategoryColor (category : String) : Option String :=
  (jsLookup analyticsCATEGORIES category).or
    (jsLookup analyticsCATEGORIES "Other")

/-- A stored report as the frontend receives it from the server. -/
structure Report where
  id : Nat
  description : String
  category : String
  latitude : ℚ
  longitude : ℚ
  created_at : Nat
deriving DecidableEq, Repr

/-- App.jsx `toggleCategory` (Sidebar.jsx file, lines 202-207): copy the
set, delete the name if present, otherwise add it. -/
def toggleCategory (activeCategories : Finset String) (category : String) :
    Finset String :=
  if category ∈ activeCategories then activeCategories.erase category
  else insert category activeCategories

/-- App.jsx `filteredReports` (line 209):
`reports.filter(r => activeCategories.has(r.category))`. -/
def filteredReports (reports : List Report)
    (activeCategories : Finset String) : List Report :=
  reports.filter (fun r => r.category ∈ activeCategories)

/-- What App.jsx passes down in its render (lines 227-252): `MapMap` and
`Sidebar` both receive `filteredReports`, `Navbar` receives
`incidentCount={filteredReports.length}`. -/
structure AppRender where
  mapReports : List Report
  sidebarReports : List Report
  incidentCount : Nat
deriving Repr

def renderApp (reports : List Report) (activeCategories : Finset String) :
    AppRender :=
  { mapReports := filteredReports reports activeCategories
    sidebarReports := filteredReports reports activeCategories
    incidentCount := (filteredReports reports activeCategories).length }

/-- The location state of ReportModal (`{lat, lng}` or null). -/
structure Location where
  lat : ℚ
  lng : ℚ
deriving DecidableEq, Repr

/-- A JSON value as posted by the report form (string or number fields). -/
inductive JsonVal where
  | str (s : String)
  | num (q : ℚ)
deriving DecidableEq, Repr

/-- The body ReportModal posts (Navbar.jsx file, lines 81-85): the object
literal `{description, latitude: location.lat, longitude: location.lng}`,
as its ordered field list. -/
def reportBody (description : String) (location : Location) :
    List (String × JsonVal) :=
  [("description", .str description),
   ("latitude", .num location.lat),
   ("longitude", .num location.lng)]

/-- ReportModal `handleSubmit` (Navbar.jsx file, lines 78-86):
`if (!location || !description) return;` then `onSubmit({...})`.
Returns the body passed to `onSubmit`, or `none` when the guard bails out
(`!location` — location unset; `!description` — empty string is falsy). -/
def handleSubmit (location : Option Location) (description : String) :
    Option (List (String × JsonVal)) :=
  match location with
  | none => none
  | some loc =>
      if description = "" then none
      else some (reportBody description loc)

/-- App.jsx `handleReportSubmit` (lines 214-223): on a successful POST the
server's report is prepended, `setReports(prev => [res.data, ...prev])`;
on error the list is left alone. -/
def handleReportSubmit (response : Except Unit Report)
    (prev : List Report) : List Report :=
  match response with
  | .ok r => r :: prev
  | .error _ => prev

/-! ## Part 2: backend AI pipeline, modelled from the design specification
(the Flask backend's source is not part of the repository snapshot). -/

/-- Modelled from the spec: the external text-classification service's
answer — a label, or a network error / timeout (§4.1, §7). -/
inductive ExtResult where
  | ok (label : String)
  | netError
  | timeout
deriving DecidableEq, Repr

/-- Modelled from the spec: `ReportClassifier.classify` applied to one
service response (§4.1): a returned label inside the taxonomy is kept;
a label outside the taxonomy, a network error or a timeout all degrade
silently to `Uncategorized`. -/
def classify (resp : ExtResult) : String :=
  match resp with
  | .ok label => if label ∈ taxonomyKeys then label else "Uncategorized"
  | .netError => "Uncategorized"
  | .timeout => "Uncategorized"

/-- Modelled from the spec: one classification run against the external
service, seen as a trace of available responses. Exactly one response is
consumed per classification — no retry loop (§4.1); an exhausted trace
behaves as a network failure. Returns the category and the remaining
trace. -/
def classifyRun (svc : List ExtResult) : String × List ExtResult :=
  match svc with
  | [] => ("Uncategorized", [])
  | r :: rest => (classify r, rest)

/-- The two fixed hosts of the briefing dialogue (§3, §4.2). -/
inductive HostId where
  | HostA
  | HostB
deriving DecidableEq, Repr

/-- Host display names fixed by the spec: "Ava" and "Mateo" (§4.2). -/
def hostName : HostId → String
  | .HostA => "Ava"
  | .HostB => "Mateo"

/-- Modelled from the spec: a dialogue Turn (§3). -/
structure Turn where
  speaker : HostId
  text : String
  sequence : Nat
deriving DecidableEq, Repr

abbrev VoiceId := String

/-- Audio payloads as byte lists. -/
abbrev Payload := List Nat

/-- Modelled from the spec: an AudioSegment (§3); the speaker is a host
name or the single synthetic narrator. -/
structure AudioSegment where
  speaker : String
  payload : Payload
  sequence : Nat
deriving DecidableEq, Repr

/-- Modelled from the spec: the external speech-synthesis service —
given a voice and a text it yields audio bytes or fails (§4.4). -/
abbrev Voice := VoiceId → String → Option Payload

/-- Voice configuration: a primary and one alternate voice per host, and
the single default voice of the fallback tier (§4.4, §4.6). -/
structure VoiceConfig where
  primaryA : VoiceId
  alternateA : VoiceId
  primaryB : VoiceId
  alternateB : VoiceId
  defaultVoice : VoiceId
deriving DecidableEq, Repr

def voiceFor (cfg : VoiceConfig) : HostId → VoiceId × VoiceId
  | .HostA => (cfg.primaryA, cfg.alternateA)
  | .HostB => (cfg.primaryB, cfg.alternateB)

/-- Modelled from the spec: per-turn synthesis (§4.4): try the speaker's
primary voice, on failure attempt exactly one alternate; if the alternate
also fails the turn fails. -/
def synthesizeTurn (voice : Voice) (primary alternate : VoiceId)
    (name : String) (t : Turn) : Option AudioSegment :=
  match voice primary t.text with
  | some p => some ⟨name, p, t.sequence⟩
  | none =>
      match voice alternate t.text with
      | some p => some ⟨name, p, t.sequence⟩
      | none => none

/-- Modelled from the spec: the bulk form `synthesizeAll` in multi-voice
mode (§4.4): each turn uses its speaker's voices and host name; if any
turn fails the whole batch fails — partial multi-voice output is never
assembled. -/
def synthesizeAll (voice : Voice) (cfg : VoiceConfig) :
    List Turn → Option (List AudioSegment)
  | [] => some []
  | t :: ts =>
      match synthesizeTurn voice (voiceFor cfg t.speaker).1
          (voiceFor cfg t.speaker).2 (hostName t.speaker) t,
        synthesizeAll voice cfg ts with
      | some s, some ss => some (s :: ss)
      | _, _ => none

/-- The single synthetic speaker of the fallback tier (§4.6). -/
def singleVoiceName : String := "Narrator"

/-- Modelled from the spec: single-voice re-synthesis (§4.6): the full
turn sequence rendered with the one default voice, every segment
attributed to the single synthetic speaker; fails if any turn fails. -/
def synthesizeSingle (voice : Voice) (cfg : VoiceConfig) :
    List Turn → Option (List AudioSegment)
  | [] => some []
  | t :: ts =>
      match voice cfg.defaultVoice t.text, synthesizeSingle voice cfg ts with
      | some p, some ss => some (⟨singleVoiceName, p, t.sequence⟩ :: ss)
      | _, _ => none

/-- Insert a segment into a list sorted by `sequence`. -/
def insertBySeq (s : AudioSegment) : List AudioSegment → List AudioSegment
  | [] => [s]
  | t :: ts =>
      if s.sequence ≤ t.sequence then s :: t :: ts else t :: insertBySeq s ts

/-- Sort segments by `sequence` (assembly re-sorts by sequence, never by
completion order, §5). -/
def sortBySeq : List AudioSegment → List AudioSegment
  | [] => []
  | s :: ss => insertBySeq s (sortBySeq ss)

/-- The short fixed silence gap inserted between turns (§4.5). -/
def silenceGap : Payload := [0, 0]

/-- Concatenate payloads with the silence gap between consecutive turns. -/
def joinPayloads : List Payload → Payload
  | [] => []
  | [p] => p
  | p :: ps => p ++ silenceGap ++ joinPayloads ps

/-- Modelled from the spec: `AudioAssembler.assemble` (§4.5, §7):
an empty segment list is an `AssemblyError`; otherwise payloads are
concatenated in `sequence` order with the silence gap, and the distinct
ordered speaker names present become `hosts_used`. (Re-encoding of the
payloads to the common target format is abstracted away: payloads are
opaque bytes here.) -/
def assemble (segs : List AudioSegment) :
    Option (Payload × List String) :=
  match segs with
  | [] => none
  | _ =>
      let sorted := sortBySeq segs
      some (joinPayloads (sorted.map (·.payload)),
            (sorted.map (·.speaker)).dedup)

/-- Modelled from the spec: the multi-voice tier of the FallbackController
(§4.6): synthesize with the per-speaker voice map, then assemble. `none`
stands for a `SynthesisError` or `AssemblyError` from this path. -/
def multiVoicePath (voice : Voice) (cfg : VoiceConfig) (turns : List Turn) :
    Option (Payload × List String) :=
  match synthesizeAll voice cfg turns with
  | none => none
  | some segs => assemble segs

/-- Modelled from the spec: the single-voice tier (§4.6): re-synthesize
the full turn sequence with the default voice and assemble. -/
def singleVoicePath (voice : Voice) (cfg : VoiceConfig) (turns : List Turn) :
    Option (Payload × List String) :=
  match synthesizeSingle voice cfg turns with
  | none => none
  | some segs => assemble segs

/-- Outcome of the FallbackController state machine (§4.6). -/
inductive FCOutcome where
  | success (audio : Payload) (hosts_used : List String)
  | failed
deriving DecidableEq, Repr

/-- Modelled from the spec: the FallbackController (§4.6):
`Start → TryMultiVoice → (Success | TrySingleVoice) → (Success | Failed)`.
Any error in the multi-voice path downgrades to the single-voice path;
if that also fails the outcome is the terminal `Failed`. -/
def fallbackController (voice : Voice) (cfg : VoiceConfig)
    (turns : List Turn) : FCOutcome :=
  match multiVoicePath voice cfg turns with
  | some (audio, hosts) => .success audio hosts
  | none =>
      match singleVoicePath voice cfg turns with
      | some (audio, hosts) => .success audio hosts
      | none => .failed

/-- Modelled from the spec: a per-day Briefing (§3). -/
structure Briefing where
  date : Nat
  audio : Payload
  hosts_used : List String
deriving DecidableEq, Repr

/-- Modelled from the spec: one generation attempt for a day: run the
FallbackController over the day's turns; `none` on terminal failure. -/
def generateBriefing (voice : Voice) (cfg : VoiceConfig)
    (turns : List Turn) (day : Nat) : Option Briefing :=
  match fallbackController voice cfg turns with
  | .success audio hosts => some ⟨day, audio, hosts⟩
  | .failed => none

/-- The per-day briefing cache, keyed by calendar day (§4.7). -/
abbrev Cache := List (Nat × Briefing)

def cacheLookup : Cache → Nat → Option Briefing
  | [], _ => none
  | (d, b) :: rest, day => if d = day then some b else cacheLookup rest day

/-- Modelled from the spec: `BriefingService.getTodayBriefing` (§4.7):
cache hit → return immediately with no external calls; cache miss → run
the generation pipeline, cache the result only on success. Returns the
result, the new cache, and the number of generation rounds of external
calls performed. -/
def getTodayBriefing (voice : Voice) (cfg : VoiceConfig)
    (turns : List Turn) (today : Nat) (cache : Cache) :
    Option Briefing × Cache × Nat :=
  match cacheLookup cache today with
  | some b => (some b, cache, 0)
  | none =>
      match generateBriefing voice cfg turns today with
      | some b => (some b, (today, b) :: cache, 1)
      | none => (none, cache, 1)

/-! ## Theorems about the frontend components -/

/-- Helper: a key not among the seven taxonomy keys is found in none of the
three `CATEGORIES` tables. -/
lemma jsLookup_eq_none_of_not_mem_keys (c : String) (h : c ∉ taxonomyKeys) :
    jsLookup sidebarCATEGORIES c = none ∧ jsLookup mapCATEGORIES c = none ∧
    jsLookup analyticsCATEGORIES c = none := by
  simp only [taxonomyKeys, List.mem_cons, List.not_mem_nil, or_false,
    not_or] at h
  obtain ⟨h1, h2, h3, h4, h5, h6, h7⟩ := h
  refine ⟨?_, ?_, ?_⟩ <;>
    simp [jsLookup, sidebarCATEGORIES, mapCATEGORIES, analyticsCATEGORIES,
      h1, h2, h3, h4, h5, h6, h7]

/-- C2: the category taxonomy used by the UI is exactly the closed
seven-element set: the Sidebar, MapMap and AnalyticsModal `CATEGORIES`
tables all declare precisely the keys Theft, Vandalism, Accident, Fire,
Suspicious Activity, Other, Uncategorized, so their key sets coincide. -/
theorem taxonomy_tables_exactly_seven_keys :
    sidebarCATEGORIES.map Prod.fst = taxonomyKeys ∧
    mapCATEGORIES.map Prod.fst = taxonomyKeys ∧
    analyticsCATEGORIES.map Prod.fst = taxonomyKeys :=
  ⟨rfl, rfl, rfl⟩

/-- C1 (counterexample): the analytics doughnut colour lookup does not
fall back to the Uncategorized entry: for the non-taxonomy category
"Flood" it resolves to the Other colour `#6B7280`, not to the
Uncategorized entry's `#9CA3AF`. -/
theorem analytics_fallback_is_Other_not_Uncategorized :
    analyticsCategoryColor "Flood" = some "#6B7280" ∧
    analyticsCategoryColor "Flood" ≠
      jsLookup analyticsCATEGORIES "Uncategorized" := by
  refine ⟨rfl, ?_⟩
  intro h
  simp [analyticsCategoryColor, analyticsCATEGORIES, jsLookup,
    Option.or] at h

/-- C1 (amended): for every category string outside the seven taxonomy
keys, the sidebar incident cards and the map markers/popups resolve it to
the Uncategorized entry, while the analytics doughnut resolves it to the
Other colour. -/
theorem category_fallback_resolution (c : String) (h : c ∉ taxonomyKeys) :
    sidebarCategoryConfig c = some ⟨"#9CA3AF", "Uncategorized"⟩ ∧
    mapCategoryColor c = some "#9CA3AF" ∧
    analyticsCategoryColor c = some "#6B7280" := by
  obtain ⟨h1, h2, h3⟩ := jsLookup_eq_none_of_not_mem_keys c h
  unfold sidebarCategoryConfig mapCategoryColor analyticsCategoryColor
  rw [h1, h2, h3]
  exact ⟨rfl, rfl, rfl⟩

/-- C1 witness: the amended fallback statement instantiated at the
concrete non-taxonomy category "Flood". -/
theorem category_fallback_resolution_witness :
    "Flood" ∉ taxonomyKeys ∧
    (sidebarCategoryConfig "Flood" = some ⟨"#9CA3AF", "Uncategorized"⟩ ∧
     mapCategoryColor "Flood" = some "#9CA3AF" ∧
     analyticsCategoryColor "Flood" = some "#6B7280") :=
  ⟨by decide, category_fallback_resolution "Flood" (by decide)⟩

/-- C8: `toggleCategory` flips membership exactly at the toggled name —
the name is removed if present, added if absent, every other name's
membership is unchanged — and applying it twice restores the original
active-category set. -/
theorem toggleCategory_flips_exactly_one (S : Finset String) (c : String) :
    (∀ x, x ∈ toggleCategory S c ↔ (if x = c then c ∉ S else x ∈ S)) ∧
    toggleCategory (toggleCategory S c) c = S := by
  constructor
  · intro x
    by_cases hc : c ∈ S <;> by_cases hx : x = c <;>
      simp [toggleCategory, hc, hx]
  · by_cases hc : c ∈ S
    · simp [toggleCategory, hc, Finset.not_mem_erase, Finset.insert_erase]
    · simp [toggleCategory, hc, Finset.mem_insert_self,
        Finset.erase_insert hc]

/-- C9: the reports App passes to the sidebar feed and to the map are both
exactly the subsequence of stored reports whose category is in the active
set (original order preserved), and the navbar incident count equals the
length of that subsequence. -/
theorem filteredReports_exact (reports : List Report)
    (active : Finset String) :
    (renderApp reports active).sidebarReports = filteredReports reports active ∧
    (renderApp reports active).mapReports = filteredReports reports active ∧
    (filteredReports reports active).Sublist reports ∧
    (∀ r, r ∈ filteredReports reports active ↔
      r ∈ reports ∧ r.category ∈ active) ∧
    (renderApp reports active).incidentCount =
      (filteredReports reports active).length := by
  refine ⟨rfl, rfl, List.filter_sublist reports, ?_, rfl⟩
  intro r
  simp [filteredReports, List.mem_filter]

/-- C10: the report form's submit handler produces a submission exactly
when a location is set and the description is a non-empty string; with the
location unset or the description empty it returns without submitting. -/
theorem handleSubmit_guard (loc : Option Location) (d : String) :
    (handleSubmit loc d).isSome ↔ loc.isSome ∧ d ≠ "" := by
  cases loc with
  | none => simp [handleSubmit]
  | some l =>
      by_cases hd : d = "" <;> simp [handleSubmit, hd]

/-- C3: a submitted report's request body is the object with exactly the
three fields description, latitude and longitude, carrying the entered
text and the selected coordinates; and on a successful POST the server's
returned report is prepended unchanged to the displayed list. -/
theorem report_submission_roundtrip (d : String) (l : Location)
    (h : d ≠ "") (server : Report) (prev : List Report) :
    handleSubmit (some l) d = some (reportBody d l) ∧
    (reportBody d l).map Prod.fst = ["description", "latitude", "longitude"] ∧
    jsLookup (reportBody d l) "description" = some (.str d) ∧
    jsLookup (reportBody d l) "latitude" = some (.num l.lat) ∧
    jsLookup (reportBody d l) "longitude" = some (.num l.lng) ∧
    handleReportSubmit (.ok server) prev = server :: prev := by
  refine ⟨?_, rfl, ?_, ?_, ?_, rfl⟩
  · simp [handleSubmit, h]
  all_goals simp [reportBody, jsLookup]

/-- C3 witness: the roundtrip at the concrete description "Someone broke
my car window" from location (40, -74), with a concrete server reply. -/
theorem report_submission_roundtrip_witness :
    ("Someone broke my car window" ≠ "") ∧
    (handleSubmit (some ⟨40, -74⟩) "Someone broke my car window" =
      some (reportBody "Someone broke my car window" ⟨40, -74⟩) ∧
    (reportBody "Someone broke my car window" ⟨40, -74⟩).map Prod.fst =
      ["description", "latitude", "longitude"] ∧
    jsLookup (reportBody "Someone broke my car window" ⟨40, -74⟩)
      "description" = some (.str "Someone broke my car window") ∧
    jsLookup (reportBody "Someone broke my car window" ⟨40, -74⟩)
      "latitude" = some (.num (40 : ℚ)) ∧
    jsLookup (reportBody "Someone broke my car window" ⟨40, -74⟩)
      "longitude" = some (.num (-74 : ℚ)) ∧
    handleReportSubmit (.ok ⟨1, "Someone broke my car window", "Vandalism",
      40, -74, 0⟩) [] =
      [⟨1, "Someone broke my car window", "Vandalism", 40, -74, 0⟩]) :=
  ⟨by decide, report_submission_roundtrip "Someone broke my car window"
    ⟨40, -74⟩ (by decide) ⟨1, "Someone broke my car window", "Vandalism",
      40, -74, 0⟩ []⟩

/-! ## Theorems about the spec-modelled backend pipeline -/

/-- C4: the classifier always answers inside the taxonomy, consumes
exactly one response from the external-service trace (no retry loop), and
degrades to Uncategorized on a network error, a timeout, or a label
outside the taxonomy. -/
theorem classify_total_one_call (svc : List ExtResult) :
    (classifyRun svc).1 ∈ taxonomyKeys ∧
    (classifyRun svc).2 = svc.drop 1 ∧
    (∀ lab, lab ∉ taxonomyKeys → classify (.ok lab) = "Uncategorized") ∧
    classify .netError = "Uncategorized" ∧
    classify .timeout = "Uncategorized" := by
  refine ⟨?_, ?_, ?_, rfl, rfl⟩
  · rcases svc with _ | ⟨r, rest⟩
    · decide
    · show classify r ∈ taxonomyKeys
      rcases r with lab | _ | _
      · by_cases hl : lab ∈ taxonomyKeys
        · simp [classify, hl]
        · simp only [classify, hl, if_false]
          decide
      · decide
      · decide
  · rcases svc with _ | ⟨r, rest⟩ <;> rfl
  · intro lab hl
    simp [classify, hl]

/-- C4 witness: a service response whose label "Weather" is outside the
taxonomy classifies to Uncategorized, consuming the single response. -/
theorem classify_total_one_call_witness :
    "Weather" ∉ taxonomyKeys ∧
    (classifyRun [.ok "Weather"]).1 ∈ taxonomyKeys ∧
    (classifyRun [.ok "Weather"]).2 = [ExtResult.ok "Weather"].drop 1 ∧
    classify (.ok "Weather") = "Uncategorized" :=
  ⟨by decide, (classify_total_one_call [.ok "Weather"]).1,
   (classify_total_one_call [.ok "Weather"]).2.1,
   (classify_total_one_call []).2.2.1 "Weather" (by decide)⟩

/-- Helper: a successfully synthesized turn carries the requested speaker
name and the turn's sequence number. -/
lemma synthesizeTurn_speaker (voice : Voice) (p alt : VoiceId)
    (name : String) (t : Turn) (s : AudioSegment)
    (h : synthesizeTurn voice p alt name t = some s) :
    s.speaker = name ∧ s.sequence = t.sequence := by
  unfold synthesizeTurn at h
  rcases hv : voice p t.text with _ | pl <;> rw [hv] at h
  · rcases hw : voice alt t.text with _ | al <;> rw [hw] at h
    · exact absurd h (by simp)
    · cases h; exact ⟨rfl, rfl⟩
  · cases h; exact ⟨rfl, rfl⟩

/-- Helper: every segment of a successful multi-voice batch is attributed
to one of the two fixed hosts. -/
lemma synthesizeAll_speakers (voice : Voice) (cfg : VoiceConfig) :
    ∀ turns segs, synthesizeAll voice cfg turns = some segs →
    ∀ s ∈ segs, s.speaker = "Ava" ∨ s.speaker = "Mateo" := by
  intro turns
  induction turns with
  | nil =>
      intro segs h s hs
      simp only [synthesizeAll] at h
      rw [Option.some.injEq] at h
      subst h
      simp at hs
  | cons t ts ih =>
      intro segs h s hs
      simp only [synthesizeAll] at h
      rcases h1 : synthesizeTurn voice (voiceFor cfg t.speaker).1
          (voiceFor cfg t.speaker).2 (hostName t.speaker) t with _ | seg <;>
        rw [h1] at h
      · exact absurd h (by simp)
      · rcases h2 : synthesizeAll voice cfg ts with _ | rest <;> rw [h2] at h
        · exact absurd h (by simp)
        · rw [Option.some.injEq] at h
          subst h
          rcases List.mem_cons.mp hs with hs | hs
          · subst hs
            have hsp := (synthesizeTurn_speaker _ _ _ _ _ _ h1).1
            rw [hsp]
            cases t.speaker <;> simp [hostName]
          · exact ih rest h2 s hs

/-- Helper: a successful single-voice batch renders the full turn
sequence: one segment per turn, same sequence numbers in order, every
segment attributed to the single synthetic speaker. -/
lemma synthesizeSingle_spec (voice : Voice) (cfg : VoiceConfig) :
    ∀ turns segs, synthesizeSingle voice cfg turns = some segs →
    (∀ s ∈ segs, s.speaker = singleVoiceName) ∧
    segs.map (·.sequence) = turns.map (·.sequence) ∧
    segs.length = turns.length := by
  intro turns
  induction turns with
  | nil =>
      intro segs h
      simp only [synthesizeSingle] at h
      rw [Option.some.injEq] at h
      subst h
      simp
  | cons t ts ih =>
      intro segs h
      simp only [synthesizeSingle] at h
      rcases h1 : voice cfg.defaultVoice t.text with _ | p <;> rw [h1] at h
      · exact absurd h (by simp)
      · rcases h2 : synthesizeSingle voice cfg ts with _ | rest <;>
          rw [h2] at h
        · exact absurd h (by simp)
        · rw [Option.some.injEq] at h
          subst h
          obtain ⟨hsp, hseq, hlen⟩ := ih rest h2
          refine ⟨?_, ?_, ?_⟩
          · intro s hs
            rcases List.mem_cons.mp hs with hs | hs
            · subst hs; rfl
            · exact hsp s hs
          · simpa using hseq
          · simpa using hlen

/-- Helper: membership in an `insertBySeq` result. -/
lemma mem_insertBySeq (x s : AudioSegment) (l : List AudioSegment) :
    x ∈ insertBySeq s l ↔ x = s ∨ x ∈ l := by
  induction l with
  | nil => simp [insertBySeq]
  | cons t ts ih =>
      simp only [insertBySeq]
      split
      · simp [List.mem_cons]
      · simp only [List.mem_cons, ih]
        tauto

/-- Helper: `insertBySeq` grows the length by one. -/
lemma length_insertBySeq (s : AudioSegment) (l : List AudioSegment) :
    (insertBySeq s l).length = l.length + 1 := by
  induction l with
  | nil => rfl
  | cons t ts ih =>
      simp only [insertBySeq]
      split
      · rfl
      · simp [ih]

/-- Helper: sorting preserves membership. -/
lemma mem_sortBySeq (x : AudioSegment) (l : List AudioSegment) :
    x ∈ sortBySeq l ↔ x ∈ l := by
  induction l with
  | nil => simp [sortBySeq]
  | cons s ss ih => simp [sortBySeq, mem_insertBySeq, ih]

/-- Helper: sorting preserves length. -/
lemma length_sortBySeq (l : List AudioSegment) :
    (sortBySeq l).length = l.length := by
  induction l with
  | nil => rfl
  | cons s ss ih => simp [sortBySeq, length_insertBySeq, ih]

/-- Helper: a successful assembly comes from a nonempty segment list and
its `hosts_used` is the dedup of the sorted segments' speakers. -/
lemma assemble_some (segs : List AudioSegment) (audio : Payload)
    (hosts : List String) (h : assemble segs = some (audio, hosts)) :
    segs ≠ [] ∧
    hosts = ((sortBySeq segs).map (·.speaker)).dedup := by
  rcases segs with _ | ⟨s, ss⟩
  · exact absurd h (by simp [assemble])
  · refine ⟨by simp, ?_⟩
    simp only [assemble] at h
    cases h
    rfl

/-- Helper: the dedup of a nonempty list of equal elements is that single
element. -/
lemma dedup_const (l : List String) (c : String) (hne : l ≠ [])
    (h : ∀ x ∈ l, x = c) : l.dedup = [c] := by
  induction l with
  | nil => exact absurd rfl hne
  | cons x xs ih =>
      have hx : x = c := h x (by simp)
      subst hx
      rcases xs with _ | ⟨y, ys⟩
      · simp
      · have hy : y = x := (h y (by simp)).trans (h x (by simp)).symm
        rw [List.dedup_cons_of_mem (by simp [hy])]
        exact ih (by simp) (fun z hz => h z (by simp [hz]))

/-- Helper: a nodup list of strings drawn from a two-element set has at
most two entries. -/
lemma length_le_two_of_nodup (l : List String) (a b : String)
    (hn : l.Nodup) (hs : ∀ x ∈ l, x = a ∨ x = b) : l.length ≤ 2 := by
  have hsub : l.toFinset ⊆ {a, b} := by
    intro x hx
    rw [List.mem_toFinset] at hx
    rcases hs x hx with rfl | rfl <;> simp
  calc l.length = l.toFinset.card := (List.toFinset_card_of_nodup hn).symm
    _ ≤ ({a, b} : Finset String).card := Finset.card_le_card hsub
    _ ≤ 2 := Finset.card_le_two

/-- Helper: a sort producing the empty list started from the empty list. -/
lemma sortBySeq_eq_nil (l : List AudioSegment) (h : sortBySeq l = []) :
    l = [] := by
  rcases l with _ | ⟨s, ss⟩
  · rfl
  · exfalso
    have hlen := length_sortBySeq (s :: ss)
    rw [h] at hlen
    simp at hlen

/-- Helper: a successful multi-voice path yields a nonempty, duplicate-free
`hosts_used` drawn from the two fixed host names. -/
lemma multiVoicePath_hosts (voice : Voice) (cfg : VoiceConfig)
    (turns : List Turn) (audio : Payload) (hosts : List String)
    (h : multiVoicePath voice cfg turns = some (audio, hosts)) :
    hosts ≠ [] ∧ hosts.Nodup ∧
    ∀ x ∈ hosts, x = "Ava" ∨ x = "Mateo" := by
  unfold multiVoicePath at h
  rcases hsy : synthesizeAll voice cfg turns with _ | segs <;> rw [hsy] at h
  · exact absurd h (by simp)
  · obtain ⟨hne, hhosts⟩ := assemble_some segs audio hosts h
    subst hhosts
    refine ⟨?_, List.nodup_dedup _, ?_⟩
    · rcases hsort : sortBySeq segs with _ | ⟨s0, srest⟩
      · exact absurd (sortBySeq_eq_nil segs hsort) hne
      · intro h0
        rw [List.dedup_eq_nil] at h0
        simp at h0
    · intro x hx
      rw [List.mem_dedup, List.mem_map] at hx
      obtain ⟨s, hsmem, rfl⟩ := hx
      exact synthesizeAll_speakers voice cfg turns segs hsy s
        ((mem_sortBySeq s segs).mp hsmem)

/-- Helper: a successful single-voice path attributes the whole briefing
to the single synthetic narrator: `hosts_used = [singleVoiceName]`. -/
lemma singleVoicePath_hosts (voice : Voice) (cfg : VoiceConfig)
    (turns : List Turn) (audio : Payload) (hosts : List String)
    (h : singleVoicePath voice cfg turns = some (audio, hosts)) :
    hosts = [singleVoiceName] := by
  unfold singleVoicePath at h
  rcases hsy : synthesizeSingle voice cfg turns with _ | segs <;> rw [hsy] at h
  · exact absurd h (by simp)
  · obtain ⟨hne, hhosts⟩ := assemble_some segs audio hosts h
    subst hhosts
    apply dedup_const
    · rcases hsort : sortBySeq segs with _ | ⟨s0, srest⟩
      · exact absurd (sortBySeq_eq_nil segs hsort) hne
      · simp
    · intro x hx
      rw [List.mem_map] at hx
      obtain ⟨s, hsmem, rfl⟩ := hx
      exact (synthesizeSingle_spec voice cfg turns segs hsy).1 s
        ((mem_sortBySeq s segs).mp hsmem)

/-- C5: every successfully produced briefing has a `hosts_used` of exactly
one entry (single-voice fallback) or exactly two entries (multi-voice);
never zero and never more than two. -/
theorem hosts_used_one_or_two (voice : Voice) (cfg : VoiceConfig)
    (turns : List Turn) (audio : Payload) (hosts : List String)
    (h : fallbackController voice cfg turns = .success audio hosts) :
    hosts.length = 1 ∨ hosts.length = 2 := by
  unfold fallbackController at h
  rcases hm : multiVoicePath voice cfg turns with _ | ⟨a, hs0⟩ <;> rw [hm] at h
  · rcases hs1 : singleVoicePath voice cfg turns with _ | ⟨a, hs0⟩ <;>
      rw [hs1] at h
    · exact absurd h (by simp)
    · simp only [FCOutcome.success.injEq] at h
      obtain ⟨rfl, rfl⟩ := h
      rw [singleVoicePath_hosts voice cfg turns a hs0 hs1]
      left
      rfl
  · simp only [FCOutcome.success.injEq] at h
    obtain ⟨rfl, rfl⟩ := h
    obtain ⟨hne, hnd, hmem⟩ := multiVoicePath_hosts voice cfg turns a hs0 hm
    have hle : hs0.length ≤ 2 :=
      length_le_two_of_nodup hs0 "Ava" "Mateo" hnd hmem
    have hpos : hs0.length ≠ 0 := by
      intro h0
      rcases hs0 with _ | ⟨x, xs⟩
      · exact hne rfl
      · simp at h0
    omega

/-- C5 witness: a one-turn briefing where multi-voice synthesis succeeds,
with `hosts_used = ["Ava"]` of length 1. -/
theorem hosts_used_one_or_two_witness :
    fallbackController (fun _ _ => some [1]) ⟨"a", "b", "c", "d", "e"⟩
        [⟨.HostA, "hi", 1⟩] = .success [1] ["Ava"] ∧
    ((["Ava"] : List String).length = 1 ∨
     (["Ava"] : List String).length = 2) :=
  ⟨rfl, hosts_used_one_or_two (fun _ _ => some [1]) ⟨"a", "b", "c", "d", "e"⟩
    [⟨.HostA, "hi", 1⟩] [1] ["Ava"] rfl⟩

/-- C6: when the multi-voice path fails, the FallbackController
re-synthesizes the full turn sequence (one segment per turn, sequences
preserved) with the one default voice attributed to the single synthetic
speaker; a single-voice success yields `hosts_used = [singleVoiceName]`
(tiers are never mixed); if the single-voice path also fails the outcome
is the terminal Failed and no briefing is cached for the day. -/
theorem fallback_never_mixes_tiers (voice : Voice) (cfg : VoiceConfig)
    (turns : List Turn)
    (hm : multiVoicePath voice cfg turns = none) :
    (∀ segs, synthesizeSingle voice cfg turns = some segs →
        segs.length = turns.length ∧
        segs.map (·.sequence) = turns.map (·.sequence) ∧
        ∀ s ∈ segs, s.speaker = singleVoiceName) ∧
    (∀ audio hosts, singleVoicePath voice cfg turns = some (audio, hosts) →
        fallbackController voice cfg turns = .success audio hosts ∧
        hosts = [singleVoiceName]) ∧
    (singleVoicePath voice cfg turns = none →
        fallbackController voice cfg turns = .failed ∧
        ∀ today cache, cacheLookup cache today = none →
          getTodayBriefing voice cfg turns today cache = (none, cache, 1)) := by
  refine ⟨?_, ?_, ?_⟩
  · intro segs hsy
    obtain ⟨hsp, hseq, hlen⟩ := synthesizeSingle_spec voice cfg turns segs hsy
    exact ⟨hlen, hseq, hsp⟩
  · intro audio hosts h1
    constructor
    · unfold fallbackController
      rw [hm, h1]
    · exact singleVoicePath_hosts voice cfg turns audio hosts h1
  · intro h1
    have hfc : fallbackController voice cfg turns = .failed := by
      unfold fallbackController
      rw [hm, h1]
    refine ⟨hfc, ?_⟩
    intro today cache hcl
    unfold getTodayBriefing
    rw [hcl]
    unfold generateBriefing
    rw [hfc]

/-- C6 witness: one turn, a synthesizer whose host voices all fail but
whose default voice succeeds: the multi-voice path fails and the
controller succeeds on the single-voice tier with the narrator alone. -/
theorem fallback_never_mixes_tiers_witness :
    multiVoicePath (fun v _ => if v = "e" then some [2] else none)
        ⟨"a", "b", "c", "d", "e"⟩ [⟨.HostA, "hi", 1⟩] = none ∧
    (fallbackController (fun v _ => if v = "e" then some [2] else none)
        ⟨"a", "b", "c", "d", "e"⟩ [⟨.HostA, "hi", 1⟩] =
      .success [2] ["Narrator"] ∧
     ["Narrator"] = [singleVoiceName]) :=
  ⟨rfl, (fallback_never_mixes_tiers
    (fun v _ => if v = "e" then some [2] else none)
    ⟨"a", "b", "c", "d", "e"⟩ [⟨.HostA, "hi", 1⟩] rfl).2.1
    [2] ["Narrator"] rfl⟩

/-- C7: once `getTodayBriefing` has returned a briefing for a day, calling
it again for the same day returns the identical briefing (hence
byte-identical audio and `hosts_used` header), leaves the cache unchanged
and performs zero generation rounds of external calls. -/
theorem getTodayBriefing_idempotent (voice : Voice) (cfg : VoiceConfig)
    (turns : List Turn) (today : Nat) (cache : Cache) (b : Briefing)
    (c1 : Cache) (n1 : Nat)
    (_hturns : turns ≠ [])
    (h : getTodayBriefing voice cfg turns today cache = (some b, c1, n1)) :
    getTodayBriefing voice cfg turns today c1 = (some b, c1, 0) := by
  unfold getTodayBriefing at h ⊢
  rcases hl : cacheLookup cache today with _ | b0 <;> rw [hl] at h
  · rcases hg : generateBriefing voice cfg turns today with _ | b1 <;>
      rw [hg] at h
    · simp at h
    · simp only [Prod.mk.injEq, Option.some.injEq] at h
      obtain ⟨rfl, rfl, rfl⟩ := h
      simp [cacheLookup]
  · simp only [Prod.mk.injEq, Option.some.injEq] at h
    obtain ⟨rfl, rfl, rfl⟩ := h
    rw [hl]

/-- C7 witness: a concrete day generated on the first call and served
byte-identically from the cache, with zero external calls, on the second. -/
theorem getTodayBriefing_idempotent_witness :
    ([(⟨.HostA, "hi", 1⟩ : Turn)] ≠ []) ∧
    getTodayBriefing (fun _ _ => some [1]) ⟨"a", "b", "c", "d", "e"⟩
        [⟨.HostA, "hi", 1⟩] 0 [] =
      (some ⟨0, [1], ["Ava"]⟩, [(0, ⟨0, [1], ["Ava"]⟩)], 1) ∧
    getTodayBriefing (fun _ _ => some [1]) ⟨"a", "b", "c", "d", "e"⟩
        [⟨.HostA, "hi", 1⟩] 0 [(0, ⟨0, [1], ["Ava"]⟩)] =
      (some ⟨0, [1], ["Ava"]⟩, [(0, ⟨0, [1], ["Ava"]⟩)], 0) :=
  ⟨by simp, rfl,
   getTodayBriefing_idempotent (fun _ _ => some [1]) ⟨"a", "b", "c", "d", "e"⟩
     [⟨.HostA, "hi", 1⟩] 0 [] ⟨0, [1], ["Ava"]⟩ [(0, ⟨0, [1], ["Ava"]⟩)] 1
     (by simp) rfl⟩

end NeighborhoodWatch
